import Mathlib

/-!
Shallow embedding of `src/hooks/useSpeechRecognition.ts` (namespace `Hook`)
and of the earlier variant of the same hook found in the repository
(namespace `HookV0`).

The hook is a React event adapter around the browser speech-recognition
API.  Its mutable state consists of three `useState` cells
(`isListening`, `transcript`, `isSupported`) and several `useRef` cells
(`recognitionRef`, `onSpeechEndRef`, `finalTranscriptRef`, and in the
main file `isVoiceModeRef`, `shouldRestartRef`).  We model the state as
a record and each handler / exported function as a pure state
transition.  External effects (calls into the recognizer object and
timers scheduled with `setTimeout`) are collected as a list of actions.

The recognizer object is opaque: we track only whether `recognitionRef`
currently holds one (`hasRecognition`) and, for a freshly created one,
the configuration written by `startListening` (`RecognizerConfig`).
The `onSpeechEnd` callback is opaque as well; we track its presence
(`hasOnSpeechEnd`) and record each invocation, together with its string
argument, as an action.
-/

namespace Hook

/-- One entry of `event.results`: the flag `isFinal` and the text
`result[0].transcript`. -/
structure SRResult where
  isFinal : Bool
  text : String
deriving Repr, DecidableEq

/-- A `SpeechRecognitionEvent`: the full result list and `resultIndex`,
the index from which the `onresult` loop starts. -/
structure SREvent where
  results : List SRResult
  resultIndex : Nat
deriving Repr, DecidableEq

/-- The hook's mutable state: the three `useState` cells and the refs of
`useSpeechRecognition` in `src/hooks/useSpeechRecognition.ts`. -/
structure SRState where
  isListening : Bool
  transcript : String
  isSupported : Bool
  /-- whether `recognitionRef.current` is non-null -/
  hasRecognition : Bool
  /-- whether `onSpeechEndRef.current` is non-null -/
  hasOnSpeechEnd : Bool
  /-- `finalTranscriptRef.current` -/
  finalTranscript : String
  /-- `isVoiceModeRef.current` -/
  isVoiceMode : Bool
  /-- `shouldRestartRef.current` -/
  shouldRestart : Bool
deriving Repr, DecidableEq

/-- The initial values passed to `useState` / `useRef`. -/
def initialState : SRState :=
  { isListening := false
    transcript := ""
    isSupported := false
    hasRecognition := false
    hasOnSpeechEnd := false
    finalTranscript := ""
    isVoiceMode := false
    shouldRestart := false }

/-- External effects performed by the hook: calls on the recognizer
object and timer bodies scheduled with `setTimeout`. -/
inductive SRAction where
  /-- `recognitionRef.current.abort()` -/
  | abortRec : SRAction
  /-- `recognition.start()` -/
  | startRec : SRAction
  /-- `recognition.stop()` -/
  | stopRec : SRAction
  /-- `setTimeout(..., 100)` that will invoke `onSpeechEndRef.current`
  with the given text -/
  | scheduleSpeechEnd (text : String) : SRAction
  /-- `setTimeout(..., delayMs)` that will retry `startListening` -/
  | scheduleRetry (delayMs : Nat) : SRAction
  /-- actual invocation `onSpeechEnd(text)` -/
  | invokeSpeechEnd (text : String) : SRAction
deriving Repr, DecidableEq

/-- Configuration written onto a freshly constructed
`new SpeechRecognition()` by `startListening`: the three settings and
which of the four event callbacks have been assigned. -/
structure RecognizerConfig where
  continuous : Bool
  interimResults : Bool
  lang : String
  hasOnStart : Bool
  hasOnEnd : Bool
  hasOnResult : Bool
  hasOnError : Bool
deriving Repr, DecidableEq

/-- The environment the hook runs in: whether
`window.SpeechRecognition || window.webkitSpeechRecognition` is present,
and whether `recognition.start()` throws. -/
structure SREnv where
  hasSR : Bool
  startThrows : Bool
deriving Repr, DecidableEq

/-- The `useEffect(..., [])` body: if the `SpeechRecognition`
constructor is present, `setIsSupported(true)`. -/
def initEffect (hasSR : Bool) (s : SRState) : SRState :=
  if hasSR then { s with isSupported := true } else s

/-- The `recognition.onstart` handler:
`setIsListening(true); setTranscript('')`. -/
def handleStart (s : SRState) : SRState :=
  { s with isListening := true, transcript := "" }

/-- The `for` loop of `recognition.onresult`, iterating over
`event.results` from `resultIndex`.  Accumulators: the local
`interimTranscript`, the local `finalTranscript`, and
`finalTranscriptRef.current`. -/
def resultLoop (rs : List SRResult) (interim finalLocal finalRef : String) :
    String × String × String :=
  match rs with
  | [] => (interim, finalLocal, finalRef)
  | r :: rest =>
      if r.isFinal then
        resultLoop rest interim (finalLocal ++ r.text) (finalRef ++ r.text)
      else
        resultLoop rest (interim ++ r.text) finalLocal finalRef

/-- The `recognition.onresult` handler.  It runs the loop, sets the
transcript state to `finalTranscriptRef.current + interimTranscript`,
and in voice mode, when this event contributed final text and the
trimmed accumulated final transcript is non-empty, stops the recognizer
and schedules `onSpeechEnd(fullText)` on a 100 ms timer. -/
def handleResult (ev : SREvent) (s : SRState) : SRState × List SRAction :=
  let out := resultLoop (ev.results.drop ev.resultIndex) "" "" s.finalTranscript
  let interimTranscript := out.1
  let finalLocal := out.2.1
  let finalRef := out.2.2
  let currentTranscript := finalRef ++ interimTranscript
  let s1 := { s with finalTranscript := finalRef, transcript := currentTranscript }
  if finalLocal != "" && s.hasOnSpeechEnd then
    let fullText := finalRef.trim
    if fullText != "" then
      (s1, [SRAction.stopRec, SRAction.scheduleSpeechEnd fullText])
    else (s1, [])
  else (s1, [])

/-- The body of the 100 ms timer scheduled by `onresult`: if
`onSpeechEndRef.current` is still set, invoke it with the captured
text. -/
def fireSpeechEndTimer (text : String) (s : SRState) : List SRAction :=
  if s.hasOnSpeechEnd then [SRAction.invokeSpeechEnd text] else []

/-- The `recognition.onend` handler: clears the listening flag, in
manual mode with accumulated final text restores the transcript to it,
and clears `recognitionRef`. -/
def handleEnd (s : SRState) : SRState :=
  let s1 := { s with isListening := false }
  let s2 :=
    if !s.isVoiceMode && s.finalTranscript != "" then
      { s1 with transcript := s.finalTranscript }
    else s1
  { s2 with hasRecognition := false }

/-- The `recognition.onerror` handler: clears the listening flag and
`recognitionRef`; in voice mode with restart still enabled, and unless
the error is `'aborted'`, schedules a retry on a 1000 ms timer. -/
def handleError (error : String) (s : SRState) : SRState × List SRAction :=
  let s1 := { s with isListening := false, hasRecognition := false }
  if s.isVoiceMode && s.shouldRestart && error != "aborted" then
    (s1, [SRAction.scheduleRetry 1000])
  else (s1, [])

/-- Result of a call to `startListening`: the new hook state, the
external actions performed, and the configuration of the recognizer
created by this call (none when the call returned early). -/
structure StartResult where
  state : SRState
  actions : List SRAction
  created : Option RecognizerConfig
deriving Repr, DecidableEq

/-- `startListening(onSpeechEnd?)`.  Returns early when unsupported or
when the constructor is absent; otherwise aborts any existing
recognizer, sets the voice-mode refs, creates a new recognizer with the
three settings and all four handlers assigned, clears
`finalTranscriptRef`, and calls `recognition.start()`, which may throw
(then the catch clears the listening flag and `recognitionRef`). -/
def startListening (env : SREnv) (onSpeechEnd : Bool) (s : SRState) :
    StartResult :=
  if !s.isSupported then ⟨s, [], none⟩
  else if !env.hasSR then ⟨s, [], none⟩
  else
    let abortActs := if s.hasRecognition then [SRAction.abortRec] else []
    let s1 := { s with
      isVoiceMode := onSpeechEnd
      shouldRestart := onSpeechEnd
      hasRecognition := true
      hasOnSpeechEnd := onSpeechEnd
      finalTranscript := "" }
    let cfg : RecognizerConfig :=
      { continuous := true
        interimResults := true
        lang := "tr-TR"
        hasOnStart := true
        hasOnEnd := true
        hasOnResult := true
        hasOnError := true }
    if env.startThrows then
      ⟨{ s1 with isListening := false, hasRecognition := false },
        abortActs ++ [SRAction.startRec], some cfg⟩
    else
      ⟨s1, abortActs ++ [SRAction.startRec], some cfg⟩

/-- The body of the 1000 ms retry timer scheduled by `onerror`: if
restart is still enabled and the callback is still set, call
`startListening(onSpeechEndRef.current)`. -/
def fireRetryTimer (env : SREnv) (s : SRState) : StartResult :=
  if s.shouldRestart && s.hasOnSpeechEnd then
    startListening env true s
  else ⟨s, [], none⟩

/-- `stopListening()`: disables restart and voice mode, and stops the
current recognizer when one exists and the hook is listening. -/
def stopListening (s : SRState) : SRState × List SRAction :=
  let s1 := { s with shouldRestart := false, isVoiceMode := false }
  if s.hasRecognition && s.isListening then (s1, [SRAction.stopRec])
  else (s1, [])

/-- `resetTranscript()`: clears the transcript state and
`finalTranscriptRef`. -/
def resetTranscript (s : SRState) : SRState :=
  { s with transcript := "", finalTranscript := "" }

/-- Concatenation of the texts of the final results, in result order. -/
def finalsConcat : List SRResult → String
  | [] => ""
  | r :: rest =>
      if r.isFinal then r.text ++ finalsConcat rest else finalsConcat rest

/-- Concatenation of the texts of the non-final results, in result
order. -/
def interimConcat : List SRResult → String
  | [] => ""
  | r :: rest =>
      if r.isFinal then interimConcat rest else r.text ++ interimConcat rest

end Hook

namespace HookV0

/-!
The earlier variant of the hook found in the repository.  It has no
voice-mode refs (`isVoiceModeRef`, `shouldRestartRef`), no abort of an
existing recognizer in `startListening`, no retry on error, and
invokes the `onSpeechEnd` callback synchronously after
`recognition.stop()`.  Its state is the three `useState` cells plus the
three refs `recognitionRef`, `onSpeechEndRef`, `finalTranscriptRef`.
Result and event types, actions and recognizer configurations are
shared with namespace `Hook`.
-/

/-- The state of the variant hook. -/
structure SRState where
  isListening : Bool
  transcript : String
  isSupported : Bool
  /-- whether `recognitionRef.current` is non-null -/
  hasRecognition : Bool
  /-- whether `onSpeechEndRef.current` is non-null -/
  hasOnSpeechEnd : Bool
  /-- `finalTranscriptRef.current` -/
  finalTranscript : String
deriving Repr, DecidableEq

/-- The initial values passed to `useState` / `useRef`. -/
def initialState : SRState :=
  { isListening := false
    transcript := ""
    isSupported := false
    hasRecognition := false
    hasOnSpeechEnd := false
    finalTranscript := "" }

/-- The `useEffect(..., [])` body of the variant. -/
def initEffect (hasSR : Bool) (s : SRState) : SRState :=
  if hasSR then { s with isSupported := true } else s

/-- The `recognition.onstart` handler of the variant:
`setIsListening(true); setTranscript('')`. -/
def handleStart (s : SRState) : SRState :=
  { s with isListening := true, transcript := "" }

/-- The `recognition.onresult` handler of the variant.  The transcript
computation is identical to the main file; in voice mode, when this
event contributed final text and the trimmed accumulated final
transcript is non-empty, it stops the recognizer and invokes
`onSpeechEnd(fullText)` synchronously. -/
def handleResult (ev : Hook.SREvent) (s : SRState) : SRState × List Hook.SRAction :=
  let out := Hook.resultLoop (ev.results.drop ev.resultIndex) "" "" s.finalTranscript
  let interimTranscript := out.1
  let finalLocal := out.2.1
  let finalRef := out.2.2
  let currentTranscript := finalRef ++ interimTranscript
  let s1 := { s with finalTranscript := finalRef, transcript := currentTranscript }
  if finalLocal != "" && s.hasOnSpeechEnd then
    let fullText := finalRef.trim
    if fullText != "" then
      (s1, [Hook.SRAction.stopRec, Hook.SRAction.invokeSpeechEnd fullText])
    else (s1, [])
  else (s1, [])

/-- The `recognition.onend` handler of the variant: clears the
listening flag; when no callback is set and final text was
accumulated, restores the transcript to it. -/
def handleEnd (s : SRState) : SRState :=
  let s1 := { s with isListening := false }
  if !s.hasOnSpeechEnd && s.finalTranscript != "" then
    { s1 with transcript := s.finalTranscript }
  else s1

/-- The `recognition.onerror` handler of the variant: only
`setIsListening(false)`. -/
def handleError (_error : String) (s : SRState) : SRState :=
  { s with isListening := false }

/-- Result of a call to the variant's `startListening`. -/
structure StartResult where
  state : SRState
  actions : List Hook.SRAction
  created : Option Hook.RecognizerConfig
deriving Repr, DecidableEq

/-- The variant's `startListening(onSpeechEnd?)`: returns early when
unsupported or already listening, or when the constructor is absent;
otherwise creates a new recognizer with settings and all four
handlers, clears `finalTranscriptRef`, and calls
`recognition.start()`, whose catch only clears the listening flag. -/
def startListening (env : Hook.SREnv) (onSpeechEnd : Bool) (s : SRState) :
    StartResult :=
  if !s.isSupported || s.isListening then ⟨s, [], none⟩
  else if !env.hasSR then ⟨s, [], none⟩
  else
    let s1 := { s with
      hasRecognition := true
      hasOnSpeechEnd := onSpeechEnd
      finalTranscript := "" }
    let cfg : Hook.RecognizerConfig :=
      { continuous := true
        interimResults := true
        lang := "tr-TR"
        hasOnStart := true
        hasOnEnd := true
        hasOnResult := true
        hasOnError := true }
    if env.startThrows then
      ⟨{ s1 with isListening := false }, [Hook.SRAction.startRec], some cfg⟩
    else
      ⟨s1, [Hook.SRAction.startRec], some cfg⟩

/-- The variant's `stopListening()`. -/
def stopListening (s : SRState) : SRState × List Hook.SRAction :=
  if s.hasRecognition && s.isListening then (s, [Hook.SRAction.stopRec])
  else (s, [])

/-- The variant's `resetTranscript()`. -/
def resetTranscript (s : SRState) : SRState :=
  { s with transcript := "", finalTranscript := "" }

end HookV0

/-!
## Theorems

Supporting lemmas first, then one theorem per specification claim.
-/

/-- Characterization of the `onresult` loop: starting from accumulators
`interim`, `finalLocal`, `finalRef`, it appends the non-final texts to
`interim` and the final texts to both `finalLocal` and `finalRef`, in
result order. -/
theorem Hook.resultLoop_spec (rs : List Hook.SRResult)
    (interim finalLocal finalRef : String) :
    Hook.resultLoop rs interim finalLocal finalRef =
      (interim ++ Hook.interimConcat rs,
        finalLocal ++ Hook.finalsConcat rs,
        finalRef ++ Hook.finalsConcat rs) := by
  induction rs generalizing interim finalLocal finalRef with
  | nil => simp [Hook.resultLoop, Hook.interimConcat, Hook.finalsConcat]
  | cons r rest ih =>
      by_cases h : r.isFinal
      · simp [Hook.resultLoop, Hook.interimConcat, Hook.finalsConcat, h, ih,
          String.append_assoc]
      · simp [Hook.resultLoop, Hook.interimConcat, Hook.finalsConcat, h, ih,
          String.append_assoc]

/-- The state produced by `Hook.handleResult` is the same in every
branch of the handler: only the emitted actions differ. -/
theorem Hook.handleResult_state (ev : Hook.SREvent) (s : Hook.SRState) :
    (Hook.handleResult ev s).1 =
      { s with
        finalTranscript :=
          s.finalTranscript ++ Hook.finalsConcat (ev.results.drop ev.resultIndex)
        transcript :=
          (s.finalTranscript ++ Hook.finalsConcat (ev.results.drop ev.resultIndex)) ++
            Hook.interimConcat (ev.results.drop ev.resultIndex) } := by
  unfold Hook.handleResult
  simp only [Hook.resultLoop_spec]
  split
  · split <;> rfl
  · rfl

/-- Same for the variant's `onresult` handler. -/
theorem HookV0.handleResultV0_state (ev : Hook.SREvent) (s : HookV0.SRState) :
    (HookV0.handleResult ev s).1 =
      { s with
        finalTranscript :=
          s.finalTranscript ++ Hook.finalsConcat (ev.results.drop ev.resultIndex)
        transcript :=
          (s.finalTranscript ++ Hook.finalsConcat (ev.results.drop ev.resultIndex)) ++
            Hook.interimConcat (ev.results.drop ev.resultIndex) } := by
  unfold HookV0.handleResult
  simp only [Hook.resultLoop_spec]
  split
  · split <;> rfl
  · rfl

/-- C1: on every result event, `onresult` sets the transcript state to
the finalized text accumulated so far in the session (the previous
accumulated final text followed by this event's final texts, in result
order) followed by this event's non-final texts, in result order - in
both versions of the hook. -/
theorem onresult_sets_transcript_final_then_interim :
    (∀ (ev : Hook.SREvent) (s : Hook.SRState),
      (Hook.handleResult ev s).1.transcript =
        (Hook.handleResult ev s).1.finalTranscript ++
          Hook.interimConcat (ev.results.drop ev.resultIndex) ∧
      (Hook.handleResult ev s).1.finalTranscript =
        s.finalTranscript ++ Hook.finalsConcat (ev.results.drop ev.resultIndex)) ∧
    (∀ (ev : Hook.SREvent) (s : HookV0.SRState),
      (HookV0.handleResult ev s).1.transcript =
        (HookV0.handleResult ev s).1.finalTranscript ++
          Hook.interimConcat (ev.results.drop ev.resultIndex) ∧
      (HookV0.handleResult ev s).1.finalTranscript =
        s.finalTranscript ++ Hook.finalsConcat (ev.results.drop ev.resultIndex)) := by
  constructor
  · intro ev s
    rw [Hook.handleResult_state]
    exact ⟨rfl, rfl⟩
  · intro ev s
    rw [HookV0.handleResultV0_state]
    exact ⟨rfl, rfl⟩

/-- C2: the listening flag is written `true` by the `onstart` handler
and `false` by the `onend` and `onerror` handlers, and is untouched by
`onresult`, so it is true exactly while a recognizer session is
active. -/
theorem listening_true_between_start_and_end :
    (∀ s : Hook.SRState, (Hook.handleStart s).isListening = true) ∧
    (∀ s : Hook.SRState, (Hook.handleEnd s).isListening = false) ∧
    (∀ (e : String) (s : Hook.SRState),
      (Hook.handleError e s).1.isListening = false) ∧
    (∀ (ev : Hook.SREvent) (s : Hook.SRState),
      (Hook.handleResult ev s).1.isListening = s.isListening) := by
  refine ⟨fun s => rfl, fun s => ?_, fun e s => ?_, fun ev s => ?_⟩
  · unfold Hook.handleEnd
    split <;> rfl
  · unfold Hook.handleError
    split <;> rfl
  · rw [Hook.handleResult_state]

/-- C3: every failure is surfaced as "not listening": after `onerror`
runs (in either version), and after `recognition.start()` throws
inside `startListening`, the listening flag is false. -/
theorem failures_surface_as_not_listening :
    (∀ (e : String) (s : Hook.SRState),
      (Hook.handleError e s).1.isListening = false) ∧
    (∀ (env : Hook.SREnv) (cb : Bool) (s : Hook.SRState),
      s.isSupported = true → env.hasSR = true → env.startThrows = true →
      (Hook.startListening env cb s).state.isListening = false) ∧
    (∀ (e : String) (s : HookV0.SRState),
      (HookV0.handleError e s).isListening = false) := by
  refine ⟨fun e s => ?_, fun env cb s hs hsr ht => ?_, fun e s => rfl⟩
  · unfold Hook.handleError
    split <;> rfl
  · unfold Hook.startListening
    simp [hs, hsr, ht]

/-- Witness for C3 at concrete inputs: a supported state, a present
constructor and a throwing `start()`. -/
theorem failures_surface_as_not_listening_witness :
    ({ Hook.initialState with isSupported := true } : Hook.SRState).isSupported = true ∧
    (⟨true, true⟩ : Hook.SREnv).hasSR = true ∧
    (⟨true, true⟩ : Hook.SREnv).startThrows = true ∧
    (Hook.startListening ⟨true, true⟩ false
      { Hook.initialState with isSupported := true }).state.isListening = false :=
  ⟨rfl, rfl, rfl,
    failures_surface_as_not_listening.2.1 ⟨true, true⟩ false
      { Hook.initialState with isSupported := true } rfl rfl rfl⟩

/-- Counterexample to C4 as stated: in voice mode with restart still
enabled (not disabled by `stopListening` or otherwise), an error event
whose error string is `'aborted'` schedules no retry at all, because
`onerror` additionally requires `event.error !== 'aborted'`. -/
theorem voice_mode_aborted_error_schedules_no_retry :
    ({ isListening := true, transcript := "", isSupported := true,
       hasRecognition := true, hasOnSpeechEnd := true, finalTranscript := "",
       isVoiceMode := true, shouldRestart := true } : Hook.SRState).isVoiceMode
        = true ∧
    ({ isListening := true, transcript := "", isSupported := true,
       hasRecognition := true, hasOnSpeechEnd := true, finalTranscript := "",
       isVoiceMode := true, shouldRestart := true } : Hook.SRState).shouldRestart
        = true ∧
    (Hook.handleError "aborted"
      { isListening := true, transcript := "", isSupported := true,
        hasRecognition := true, hasOnSpeechEnd := true, finalTranscript := "",
        isVoiceMode := true, shouldRestart := true }).2 = [] := by
  refine ⟨rfl, rfl, ?_⟩
  decide

/-- C4 (amended): in voice mode, a recognition error other than
`'aborted'` triggers a retry of `startListening` after a fixed delay,
unless restart has been disabled before the error or during the delay;
besides clearing the listening flag and the recognizer reference, this
retry is the only failure handling performed. -/
theorem voice_mode_error_retry :
    (∀ (e : String) (s : Hook.SRState),
      s.isVoiceMode = true → s.shouldRestart = true → e ≠ "aborted" →
      Hook.handleError e s =
        ({ s with isListening := false, hasRecognition := false },
          [Hook.SRAction.scheduleRetry 1000])) ∧
    (∀ (e : String) (s : Hook.SRState),
      s.isVoiceMode = false ∨ s.shouldRestart = false ∨ e = "aborted" →
      Hook.handleError e s =
        ({ s with isListening := false, hasRecognition := false }, [])) ∧
    (∀ (env : Hook.SREnv) (s : Hook.SRState),
      s.shouldRestart = false →
      Hook.fireRetryTimer env s = ⟨s, [], none⟩) ∧
    (∀ (env : Hook.SREnv) (s : Hook.SRState),
      s.shouldRestart = true → s.hasOnSpeechEnd = true →
      Hook.fireRetryTimer env s = Hook.startListening env true s) := by
  refine ⟨fun e s hv hr he => ?_, fun e s h => ?_, fun env s hr => ?_,
    fun env s hr hc => ?_⟩
  · unfold Hook.handleError
    have : (e != "aborted") = true := by
      simp [bne_iff_ne, he]
    simp [hv, hr, this]
  · unfold Hook.handleError
    rcases h with h | h | h <;> simp [h]
  · unfold Hook.fireRetryTimer
    simp [hr]
  · unfold Hook.fireRetryTimer
    simp [hr, hc]

/-- Witness for the amended C4 at concrete inputs: a voice-mode state
with restart enabled and a `'network'` error schedules the retry; with
restart disabled the timer body is a no-op. -/
theorem voice_mode_error_retry_witness :
    ({ isListening := true, transcript := "", isSupported := true,
       hasRecognition := true, hasOnSpeechEnd := true, finalTranscript := "",
       isVoiceMode := true, shouldRestart := true } : Hook.SRState).isVoiceMode
        = true ∧
    ("network" : String) ≠ "aborted" ∧
    Hook.handleError "network"
      { isListening := true, transcript := "", isSupported := true,
        hasRecognition := true, hasOnSpeechEnd := true, finalTranscript := "",
        isVoiceMode := true, shouldRestart := true } =
      ({ isListening := false, transcript := "", isSupported := true,
         hasRecognition := false, hasOnSpeechEnd := true, finalTranscript := "",
         isVoiceMode := true, shouldRestart := true },
        [Hook.SRAction.scheduleRetry 1000]) ∧
    Hook.fireRetryTimer ⟨true, false⟩
      { Hook.initialState with shouldRestart := false } =
      ⟨{ Hook.initialState with shouldRestart := false }, [], none⟩ :=
  ⟨rfl, by decide,
    voice_mode_error_retry.1 "network"
      { isListening := true, transcript := "", isSupported := true,
        hasRecognition := true, hasOnSpeechEnd := true, finalTranscript := "",
        isVoiceMode := true, shouldRestart := true } rfl rfl (by decide),
    voice_mode_error_retry.2.2.1 ⟨true, false⟩
      { Hook.initialState with shouldRestart := false } rfl⟩

/-- C5: the transcript is reset on each new listening session: a
`startListening` call that reaches recognizer creation clears the
accumulated finalized text, and the `onstart` handler of the new
session sets the transcript state to the empty string - in both
versions of the hook. -/
theorem transcript_reset_on_new_session :
    (∀ (env : Hook.SREnv) (cb : Bool) (s : Hook.SRState),
      s.isSupported = true → env.hasSR = true →
      (Hook.startListening env cb s).state.finalTranscript = "") ∧
    (∀ s : Hook.SRState, (Hook.handleStart s).transcript = "") ∧
    (∀ (env : Hook.SREnv) (cb : Bool) (s : HookV0.SRState),
      s.isSupported = true → s.isListening = false → env.hasSR = true →
      (HookV0.startListening env cb s).state.finalTranscript = "") ∧
    (∀ s : HookV0.SRState, (HookV0.handleStart s).transcript = "") := by
  refine ⟨fun env cb s hs hsr => ?_, fun s => rfl,
    fun env cb s hs hl hsr => ?_, fun s => rfl⟩
  · unfold Hook.startListening
    rcases ht : env.startThrows <;> simp [hs, hsr, ht]
  · unfold HookV0.startListening
    rcases ht : env.startThrows <;> simp [hs, hl, hsr, ht]

/-- Witness for C5 at concrete inputs. -/
theorem transcript_reset_on_new_session_witness :
    ({ Hook.initialState with
        isSupported := true
        finalTranscript := "old" } : Hook.SRState).isSupported = true ∧
    (⟨true, false⟩ : Hook.SREnv).hasSR = true ∧
    (Hook.startListening ⟨true, false⟩ true
      { Hook.initialState with
        isSupported := true
        finalTranscript := "old" }).state.finalTranscript = "" ∧
    ({ HookV0.initialState with
        isSupported := true
        finalTranscript := "old" } : HookV0.SRState).isSupported = true ∧
    (HookV0.startListening ⟨true, false⟩ false
      { HookV0.initialState with
        isSupported := true
        finalTranscript := "old" }).state.finalTranscript = "" :=
  ⟨rfl, rfl,
    transcript_reset_on_new_session.1 ⟨true, false⟩ true
      { Hook.initialState with
        isSupported := true
        finalTranscript := "old" }
      rfl rfl,
    rfl,
    transcript_reset_on_new_session.2.2.1 ⟨true, false⟩ false
      { HookV0.initialState with
        isSupported := true
        finalTranscript := "old" }
      rfl rfl rfl⟩

/-- C6: the supported flag is set by the one-time initialization effect
exactly when the `SpeechRecognition` constructor is present, and no
other operation of either hook version ever writes it. -/
theorem supported_set_once_never_changes :
    ((∀ h : Bool, (Hook.initEffect h Hook.initialState).isSupported = h) ∧
      ∀ (h : Bool) (s : Hook.SRState),
        (Hook.initEffect h s).isSupported = (s.isSupported || h)) ∧
    ((∀ (env : Hook.SREnv) (cb : Bool) (s : Hook.SRState),
        (Hook.startListening env cb s).state.isSupported = s.isSupported) ∧
      (∀ s : Hook.SRState, (Hook.handleStart s).isSupported = s.isSupported) ∧
      (∀ (ev : Hook.SREvent) (s : Hook.SRState),
        (Hook.handleResult ev s).1.isSupported = s.isSupported) ∧
      (∀ s : Hook.SRState, (Hook.handleEnd s).isSupported = s.isSupported) ∧
      (∀ (e : String) (s : Hook.SRState),
        (Hook.handleError e s).1.isSupported = s.isSupported) ∧
      (∀ s : Hook.SRState,
        (Hook.stopListening s).1.isSupported = s.isSupported) ∧
      (∀ s : Hook.SRState,
        (Hook.resetTranscript s).isSupported = s.isSupported) ∧
      (∀ (env : Hook.SREnv) (s : Hook.SRState),
        (Hook.fireRetryTimer env s).state.isSupported = s.isSupported)) ∧
    ((∀ h : Bool, (HookV0.initEffect h HookV0.initialState).isSupported = h) ∧
      (∀ (env : Hook.SREnv) (cb : Bool) (s : HookV0.SRState),
        (HookV0.startListening env cb s).state.isSupported = s.isSupported) ∧
      (∀ s : HookV0.SRState, (HookV0.handleStart s).isSupported = s.isSupported) ∧
      (∀ (ev : Hook.SREvent) (s : HookV0.SRState),
        (HookV0.handleResult ev s).1.isSupported = s.isSupported) ∧
      (∀ s : HookV0.SRState, (HookV0.handleEnd s).isSupported = s.isSupported) ∧
      (∀ (e : String) (s : HookV0.SRState),
        (HookV0.handleError e s).isSupported = s.isSupported) ∧
      (∀ s : HookV0.SRState,
        (HookV0.stopListening s).1.isSupported = s.isSupported) ∧
      (∀ s : HookV0.SRState,
        (HookV0.resetTranscript s).isSupported = s.isSupported)) := by
  refine ⟨⟨fun h => ?_, fun h s => ?_⟩,
    ⟨fun env cb s => ?_, fun s => rfl, fun ev s => ?_, fun s => ?_,
      fun e s => ?_, fun s => ?_, fun s => rfl, fun env s => ?_⟩,
    ⟨fun h => ?_, fun env cb s => ?_, fun s => rfl, fun ev s => ?_,
      fun s => ?_, fun e s => rfl, fun s => ?_, fun s => rfl⟩⟩
  · cases h <;> rfl
  · unfold Hook.initEffect
    cases h <;> simp
  · unfold Hook.startListening
    split
    · rfl
    · split
      · rfl
      · split <;> split <;> rfl
  · rw [Hook.handleResult_state]
  · unfold Hook.handleEnd
    split <;> rfl
  · unfold Hook.handleError
    split <;> rfl
  · unfold Hook.stopListening
    split <;> rfl
  · unfold Hook.fireRetryTimer
    split
    · unfold Hook.startListening
      split
      · rfl
      · split
        · rfl
        · split <;> split <;> rfl
    · rfl
  · cases h <;> rfl
  · unfold HookV0.startListening
    split
    · rfl
    · split
      · rfl
      · split <;> rfl
  · rw [HookV0.handleResultV0_state]
  · unfold HookV0.handleEnd
    split <;> rfl
  · unfold HookV0.stopListening
    split <;> rfl

/-- C8: when the supported flag is false, `startListening` returns
immediately: no recognizer is created, no external action is performed,
and the whole state (listening flag, transcript, every ref) is
unchanged - in both versions of the hook. -/
theorem unsupported_startListening_noop :
    (∀ (env : Hook.SREnv) (cb : Bool) (s : Hook.SRState),
      s.isSupported = false →
      Hook.startListening env cb s = ⟨s, [], none⟩) ∧
    (∀ (env : Hook.SREnv) (cb : Bool) (s : HookV0.SRState),
      s.isSupported = false →
      HookV0.startListening env cb s = ⟨s, [], none⟩) := by
  refine ⟨fun env cb s hs => ?_, fun env cb s hs => ?_⟩
  · unfold Hook.startListening
    simp [hs]
  · unfold HookV0.startListening
    simp [hs]

/-- Witness for C8 at a concrete unsupported state. -/
theorem unsupported_startListening_noop_witness :
    (Hook.initialState.isSupported = false ∧
      Hook.startListening ⟨true, false⟩ true Hook.initialState =
        ⟨Hook.initialState, [], none⟩) ∧
    (HookV0.initialState.isSupported = false ∧
      HookV0.startListening ⟨true, false⟩ true HookV0.initialState =
        ⟨HookV0.initialState, [], none⟩) :=
  ⟨⟨rfl, unsupported_startListening_noop.1 ⟨true, false⟩ true
      Hook.initialState rfl⟩,
    ⟨rfl, unsupported_startListening_noop.2 ⟨true, false⟩ true
      HookV0.initialState rfl⟩⟩

/-- C7: a `startListening` call that reaches recognizer creation
produces a recognizer with all four callbacks (start, result, end,
error) assigned and calls `start()` on it (after aborting any previous
recognizer); and the handlers themselves only write the listening
flag, the transcript state (including the accumulated final text) and
the recognizer-reference bookkeeping: every handler leaves the
supported flag, the stored callback, the voice-mode flag and the
restart flag unchanged. -/
theorem startListening_registers_four_callbacks :
    (∀ (env : Hook.SREnv) (cb : Bool) (s : Hook.SRState),
      s.isSupported = true → env.hasSR = true →
      ∃ cfg : Hook.RecognizerConfig,
        (Hook.startListening env cb s).created = some cfg ∧
        cfg.hasOnStart = true ∧ cfg.hasOnResult = true ∧
        cfg.hasOnEnd = true ∧ cfg.hasOnError = true ∧
        (Hook.startListening env cb s).actions =
          (if s.hasRecognition then [Hook.SRAction.abortRec] else []) ++
            [Hook.SRAction.startRec]) ∧
    (∀ s : Hook.SRState,
      (Hook.handleStart s).isSupported = s.isSupported ∧
      (Hook.handleStart s).hasOnSpeechEnd = s.hasOnSpeechEnd ∧
      (Hook.handleStart s).isVoiceMode = s.isVoiceMode ∧
      (Hook.handleStart s).shouldRestart = s.shouldRestart ∧
      (Hook.handleStart s).hasRecognition = s.hasRecognition ∧
      (Hook.handleStart s).finalTranscript = s.finalTranscript) ∧
    (∀ (ev : Hook.SREvent) (s : Hook.SRState),
      (Hook.handleResult ev s).1.isListening = s.isListening ∧
      (Hook.handleResult ev s).1.isSupported = s.isSupported ∧
      (Hook.handleResult ev s).1.hasRecognition = s.hasRecognition ∧
      (Hook.handleResult ev s).1.hasOnSpeechEnd = s.hasOnSpeechEnd ∧
      (Hook.handleResult ev s).1.isVoiceMode = s.isVoiceMode ∧
      (Hook.handleResult ev s).1.shouldRestart = s.shouldRestart) ∧
    (∀ s : Hook.SRState,
      (Hook.handleEnd s).isSupported = s.isSupported ∧
      (Hook.handleEnd s).hasOnSpeechEnd = s.hasOnSpeechEnd ∧
      (Hook.handleEnd s).isVoiceMode = s.isVoiceMode ∧
      (Hook.handleEnd s).shouldRestart = s.shouldRestart ∧
      (Hook.handleEnd s).finalTranscript = s.finalTranscript) ∧
    (∀ (e : String) (s : Hook.SRState),
      (Hook.handleError e s).1.isSupported = s.isSupported ∧
      (Hook.handleError e s).1.transcript = s.transcript ∧
      (Hook.handleError e s).1.hasOnSpeechEnd = s.hasOnSpeechEnd ∧
      (Hook.handleError e s).1.isVoiceMode = s.isVoiceMode ∧
      (Hook.handleError e s).1.shouldRestart = s.shouldRestart ∧
      (Hook.handleError e s).1.finalTranscript = s.finalTranscript) ∧
    (∀ (env : Hook.SREnv) (cb : Bool) (s : HookV0.SRState),
      s.isSupported = true → s.isListening = false → env.hasSR = true →
      ∃ cfg : Hook.RecognizerConfig,
        (HookV0.startListening env cb s).created = some cfg ∧
        cfg.hasOnStart = true ∧ cfg.hasOnResult = true ∧
        cfg.hasOnEnd = true ∧ cfg.hasOnError = true ∧
        (HookV0.startListening env cb s).actions = [Hook.SRAction.startRec]) := by
  refine ⟨fun env cb s hs hsr => ?_, fun s => ⟨rfl, rfl, rfl, rfl, rfl, rfl⟩,
    fun ev s => ?_, fun s => ?_, fun e s => ?_,
    fun env cb s hs hl hsr => ?_⟩
  · unfold Hook.startListening
    rcases ht : env.startThrows <;> rcases hr : s.hasRecognition <;>
      simp [hs, hsr, ht, hr]
  · rw [Hook.handleResult_state]
    exact ⟨rfl, rfl, rfl, rfl, rfl, rfl⟩
  · unfold Hook.handleEnd
    split <;> exact ⟨rfl, rfl, rfl, rfl, rfl⟩
  · unfold Hook.handleError
    split <;> exact ⟨rfl, rfl, rfl, rfl, rfl, rfl⟩
  · unfold HookV0.startListening
    rcases ht : env.startThrows <;> simp [hs, hl, hsr, ht]

/-- Witness for C7 at concrete inputs. -/
theorem startListening_registers_four_callbacks_witness :
    ({ Hook.initialState with isSupported := true } : Hook.SRState).isSupported
      = true ∧
    (⟨true, false⟩ : Hook.SREnv).hasSR = true ∧
    (∃ cfg : Hook.RecognizerConfig,
      (Hook.startListening ⟨true, false⟩ true
        { Hook.initialState with isSupported := true }).created = some cfg ∧
      cfg.hasOnStart = true ∧ cfg.hasOnResult = true ∧
      cfg.hasOnEnd = true ∧ cfg.hasOnError = true ∧
      (Hook.startListening ⟨true, false⟩ true
        { Hook.initialState with isSupported := true }).actions =
        (if ({ Hook.initialState with isSupported := true } :
              Hook.SRState).hasRecognition
          then [Hook.SRAction.abortRec] else []) ++ [Hook.SRAction.startRec]) :=
  ⟨rfl, rfl,
    startListening_registers_four_callbacks.1 ⟨true, false⟩ true
      { Hook.initialState with isSupported := true } rfl rfl⟩

/-- Characterization of the actions emitted by `Hook.handleResult`:
nothing, unless this event contributed final text, a callback is
stored and the trimmed accumulated final text is non-empty, in which
case the recognizer is stopped and the callback invocation is
scheduled, in that order. -/
theorem Hook.handleResult_actions (ev : Hook.SREvent) (s : Hook.SRState) :
    (Hook.handleResult ev s).2 =
      if (Hook.finalsConcat (ev.results.drop ev.resultIndex) != ""
            && s.hasOnSpeechEnd)
          && ((s.finalTranscript ++
              Hook.finalsConcat (ev.results.drop ev.resultIndex)).trim != "")
      then [Hook.SRAction.stopRec,
        Hook.SRAction.scheduleSpeechEnd
          ((s.finalTranscript ++
            Hook.finalsConcat (ev.results.drop ev.resultIndex)).trim)]
      else [] := by
  unfold Hook.handleResult
  simp only [Hook.resultLoop_spec, String.empty_append]
  by_cases hA : (Hook.finalsConcat (ev.results.drop ev.resultIndex) != ""
      && s.hasOnSpeechEnd) = true
  · by_cases hB : ((s.finalTranscript ++
        Hook.finalsConcat (ev.results.drop ev.resultIndex)).trim != "") = true
    · simp [hA, hB]
    · simp [hA, hB]
  · simp [hA]

/-- Characterization of the actions emitted by the variant's
`onresult` handler: as for the main file, except that the callback is
invoked synchronously rather than scheduled. -/
theorem HookV0.handleResultV0_actions (ev : Hook.SREvent) (s : HookV0.SRState) :
    (HookV0.handleResult ev s).2 =
      if (Hook.finalsConcat (ev.results.drop ev.resultIndex) != ""
            && s.hasOnSpeechEnd)
          && ((s.finalTranscript ++
              Hook.finalsConcat (ev.results.drop ev.resultIndex)).trim != "")
      then [Hook.SRAction.stopRec,
        Hook.SRAction.invokeSpeechEnd
          ((s.finalTranscript ++
            Hook.finalsConcat (ev.results.drop ev.resultIndex)).trim)]
      else [] := by
  unfold HookV0.handleResult
  simp only [Hook.resultLoop_spec, String.empty_append]
  by_cases hA : (Hook.finalsConcat (ev.results.drop ev.resultIndex) != ""
      && s.hasOnSpeechEnd) = true
  · by_cases hB : ((s.finalTranscript ++
        Hook.finalsConcat (ev.results.drop ev.resultIndex)).trim != "") = true
    · simp [hA, hB]
    · simp [hA, hB]
  · simp [hA]

/-- C9: whenever `onresult` arranges for the `onSpeechEnd` callback to
run, the text passed is the trimmed accumulated finalized transcript
and is non-empty, and `recognition.stop()` is issued before the
callback fires; the timer body passes exactly the captured text.  The
variant invokes the callback synchronously, also after `stop()` and
also only with the non-empty trimmed finalized transcript. -/
theorem speech_end_called_with_nonempty_trimmed :
    (∀ (ev : Hook.SREvent) (s : Hook.SRState) (t : String),
      Hook.SRAction.scheduleSpeechEnd t ∈ (Hook.handleResult ev s).2 →
      t ≠ "" ∧ t = (Hook.handleResult ev s).1.finalTranscript.trim ∧
      (Hook.handleResult ev s).2 =
        [Hook.SRAction.stopRec, Hook.SRAction.scheduleSpeechEnd t]) ∧
    (∀ (t : String) (s : Hook.SRState) (a : Hook.SRAction),
      a ∈ Hook.fireSpeechEndTimer t s →
      a = Hook.SRAction.invokeSpeechEnd t) ∧
    (∀ (ev : Hook.SREvent) (s : HookV0.SRState) (t : String),
      Hook.SRAction.invokeSpeechEnd t ∈ (HookV0.handleResult ev s).2 →
      t ≠ "" ∧ t = (HookV0.handleResult ev s).1.finalTranscript.trim ∧
      (HookV0.handleResult ev s).2 =
        [Hook.SRAction.stopRec, Hook.SRAction.invokeSpeechEnd t]) := by
  refine ⟨fun ev s t hmem => ?_, fun t s a ha => ?_, fun ev s t hmem => ?_⟩
  · rw [Hook.handleResult_actions] at hmem
    rw [Hook.handleResult_actions, Hook.handleResult_state]
    split at hmem
    next hcond =>
      simp only [List.mem_cons, List.not_mem_nil, or_false] at hmem
      rcases hmem with h | h
      · exact absurd h (by simp)
      · have ht : t = (s.finalTranscript ++
            Hook.finalsConcat (ev.results.drop ev.resultIndex)).trim := by
          injection h
        have hne : ((s.finalTranscript ++
            Hook.finalsConcat (ev.results.drop ev.resultIndex)).trim != "")
              = true := by
          have := hcond
          simp only [Bool.and_eq_true] at this
          exact this.2
        refine ⟨?_, ht, ?_⟩
        · rw [ht]
          simpa using hne
        · rw [if_pos hcond, ht]
    next => simp at hmem
  · unfold Hook.fireSpeechEndTimer at ha
    split at ha
    · simpa using ha
    · simp at ha
  · rw [HookV0.handleResultV0_actions] at hmem
    rw [HookV0.handleResultV0_actions, HookV0.handleResultV0_state]
    split at hmem
    next hcond =>
      simp only [List.mem_cons, List.not_mem_nil, or_false] at hmem
      rcases hmem with h | h
      · exact absurd h (by simp)
      · have ht : t = (s.finalTranscript ++
            Hook.finalsConcat (ev.results.drop ev.resultIndex)).trim := by
          injection h
        have hne : ((s.finalTranscript ++
            Hook.finalsConcat (ev.results.drop ev.resultIndex)).trim != "")
              = true := by
          have := hcond
          simp only [Bool.and_eq_true] at this
          exact this.2
        refine ⟨?_, ht, ?_⟩
        · rw [ht]
          simpa using hne
        · rw [if_pos hcond, ht]
    next => simp at hmem

/-- Witness for C9 at a concrete event: one final result with text
`"hi"` in a voice-mode session. -/
theorem speech_end_called_with_nonempty_trimmed_witness :
    Hook.SRAction.scheduleSpeechEnd "hi" ∈
      (Hook.handleResult ⟨[⟨true, "hi"⟩], 0⟩
        { Hook.initialState with hasOnSpeechEnd := true }).2 ∧
    (("hi" : String) ≠ "" ∧
      "hi" = (Hook.handleResult ⟨[⟨true, "hi"⟩], 0⟩
        { Hook.initialState with
            hasOnSpeechEnd := true }).1.finalTranscript.trim ∧
      (Hook.handleResult ⟨[⟨true, "hi"⟩], 0⟩
        { Hook.initialState with hasOnSpeechEnd := true }).2 =
        [Hook.SRAction.stopRec, Hook.SRAction.scheduleSpeechEnd "hi"]) :=
  ⟨by
    rw [Hook.handleResult_actions]
    simp +decide [Hook.finalsConcat, String.trim, Substring.trim,
      Substring.takeWhileAux, Substring.takeRightWhileAux],
    speech_end_called_with_nonempty_trimmed.1 ⟨[⟨true, "hi"⟩], 0⟩
      { Hook.initialState with hasOnSpeechEnd := true } "hi"
      (by
        rw [Hook.handleResult_actions]
        simp +decide [Hook.finalsConcat, String.trim, Substring.trim,
          Substring.takeWhileAux, Substring.takeRightWhileAux])⟩

/-- C10: when a session ends in manual mode (no `onSpeechEnd`
callback, voice-mode flag false) with non-empty accumulated finalized
text, the `onend` handler sets the transcript state to exactly that
finalized text - in both versions of the hook. -/
theorem manual_mode_end_restores_final_transcript :
    (∀ s : Hook.SRState,
      s.isVoiceMode = false → s.hasOnSpeechEnd = false →
      s.finalTranscript ≠ "" →
      (Hook.handleEnd s).transcript = s.finalTranscript) ∧
    (∀ s : HookV0.SRState,
      s.hasOnSpeechEnd = false → s.finalTranscript ≠ "" →
      (HookV0.handleEnd s).transcript = s.finalTranscript) := by
  refine ⟨fun s hv _hc hf => ?_, fun s hc hf => ?_⟩
  · unfold Hook.handleEnd
    have : (!s.isVoiceMode && s.finalTranscript != "") = true := by
      simp [hv, bne_iff_ne, hf]
    simp [this]
  · unfold HookV0.handleEnd
    have : (!s.hasOnSpeechEnd && s.finalTranscript != "") = true := by
      simp [hc, bne_iff_ne, hf]
    simp [this]

/-- Witness for C10 at a concrete manual-mode state with accumulated
final text `"kept"`. -/
theorem manual_mode_end_restores_final_transcript_witness :
    (({ Hook.initialState with
        finalTranscript := "kept"
        transcript := "kept interim" } : Hook.SRState).isVoiceMode = false ∧
      ({ Hook.initialState with
        finalTranscript := "kept"
        transcript := "kept interim" } : Hook.SRState).finalTranscript ≠ "" ∧
      (Hook.handleEnd
        { Hook.initialState with
          finalTranscript := "kept"
          transcript := "kept interim" }).transcript = "kept") ∧
    (({ HookV0.initialState with
        finalTranscript := "kept" } : HookV0.SRState).hasOnSpeechEnd = false ∧
      (HookV0.handleEnd
        { HookV0.initialState with
          finalTranscript := "kept" }).transcript = "kept") :=
  ⟨⟨rfl, by decide,
    manual_mode_end_restores_final_transcript.1
      { Hook.initialState with
        finalTranscript := "kept"
        transcript := "kept interim" } rfl rfl (by decide)⟩,
    ⟨rfl,
      manual_mode_end_restores_final_transcript.2
        { HookV0.initialState with finalTranscript := "kept" } rfl (by decide)⟩⟩
